import Mathlib

/-!
Verification development for the wealth-sharing automation client
(`src/main.py`).  The Python source is shallowly embedded: pure pieces
become Lean functions; the ambient random source, the JSON parser from the
standard library and the network transport become explicit oracle
parameters; the mutable client state (header-rotator pool and cursor,
global origin cycle, session token) is threaded explicitly; raised
exceptions become `Except` errors; side effects that matter to the claims
(network attempts, sleeps) are recorded in an event trace.
-/

/-! ## JSON values (results of the external `json.loads`) -/

/-- Shallow model of a parsed JSON value, the result type of the external
`json.loads`.  Numbers are modelled as integers; no claim inspects a
numeric payload. -/
inductive JValue where
  | null : JValue
  | bool : Bool → JValue
  | num : Int → JValue
  | str : String → JValue
  | arr : List JValue → JValue
  | obj : List (String × JValue) → JValue

/-- Python truthiness of a JSON value: `None`, `False`, `0`, `""`, `[]`
and an empty dict are falsy, everything else truthy. -/
def jTruthy : JValue → Bool
  | .null => false
  | .bool b => b
  | .num n => n != 0
  | .str s => s != ""
  | .arr xs => !xs.isEmpty
  | .obj fs => !fs.isEmpty

/-- Python truthiness of an optional value (`None` is falsy). -/
def pyTruthy : Option JValue → Bool
  | none => false
  | some v => jTruthy v

/-- `dict.get(k)` on the field list of a JSON object: the first binding of
the key, or `none` when the key is absent. -/
def objGet (fields : List (String × JValue)) (k : String) : Option JValue :=
  (fields.find? (fun p => p.1 == k)).map (·.2)

/-! ## Browser identity pool (`generate_browser_profiles`) -/

/-- One generated browser identity: the four header values the Python code
stores per profile dict. -/
structure BrowserProfile where
  userAgent : String
  secChUa : String
  secChUaPlatform : String
  secChUaMobile : String
deriving DecidableEq, Inhabited, Repr

/-- The desktop platform catalog, verbatim from the source. -/
def desktop_platforms : List (String × String) :=
  [("Windows", "Windows NT 10.0; Win64; x64"),
   ("Windows", "Windows NT 11.0; Win64; x64"),
   ("Windows", "Windows NT 6.1; Win64; x64"),
   ("Windows", "Windows NT 6.3; Win64; x64"),
   ("Windows", "Windows NT 10.0; WOW64"),
   ("macOS", "Macintosh; Intel Mac OS X 11_7"),
   ("macOS", "Macintosh; Intel Mac OS X 12_6"),
   ("macOS", "Macintosh; Intel Mac OS X 13_5"),
   ("macOS", "Macintosh; Intel Mac OS X 14_0"),
   ("macOS", "Macintosh; Apple Silicon Mac OS X 14_1"),
   ("Linux", "X11; Linux x86_64"),
   ("Linux", "X11; Ubuntu; Linux x86_64"),
   ("Linux", "X11; Fedora; Linux x86_64"),
   ("Linux", "X11; Debian; Linux x86_64"),
   ("Linux", "X11; Arch Linux; Linux x86_64"),
   ("Linux", "X11; Linux armv8l")]

/-- The mobile platform catalog, verbatim from the source. -/
def mobile_platforms : List (String × String) :=
  [("iPhone", "iPhone; CPU iPhone OS 15_7 like Mac OS X"),
   ("iPhone", "iPhone; CPU iPhone OS 16_5 like Mac OS X"),
   ("iPhone", "iPhone; CPU iPhone OS 17_0 like Mac OS X"),
   ("iPhone", "iPhone; CPU iPhone OS 17_3 like Mac OS X"),
   ("iPad", "iPad; CPU OS 15_8 like Mac OS X"),
   ("iPad", "iPad; CPU OS 16_6 like Mac OS X"),
   ("iPad", "iPad; CPU OS 17_0 like Mac OS X"),
   ("Android", "Linux; Android 10; SM-A515F"),
   ("Android", "Linux; Android 11; SM-G991B"),
   ("Android", "Linux; Android 12; Pixel 7"),
   ("Android", "Linux; Android 13; Redmi Note 12"),
   ("Android", "Linux; Android 14; Samsung Galaxy S23"),
   ("Android", "Linux; Android 14; Pixel 8"),
   ("Android", "Linux; Android 13; OnePlus 11"),
   ("Android", "Linux; Android 12; Mi 11X"),
   ("Android", "Linux; Android 11; Nokia G21")]

/-- `platforms = desktop_platforms + mobile_platforms` from the source. -/
def all_platforms : List (String × String) := desktop_platforms ++ mobile_platforms

/-- The random draws consumed by one iteration of the generation loop:
`random.randint(114, 124)`, `random.randint(15, 17)`,
`random.choice(platforms)` (as an index into the 32-entry catalog) and
`random.choice(["Chrome", "Edg"])`. -/
structure Draw where
  chromeVer : Nat
  safariVer : Nat
  platIdx : Nat
  engineIsChrome : Bool

/-- Platform pair selected by a draw (`random.choice(platforms)`). -/
def platPair (d : Draw) : String × String := all_platforms.getD d.platIdx ("", "")

/-- The engine drawn by `random.choice(["Chrome", "Edg"])`. -/
def engineOf (d : Draw) : String := if d.engineIsChrome then "Chrome" else "Edg"

/-- The mobile user-agent f-string. -/
def mobileUA (platform_ua : String) (safariVer : Nat) : String :=
  "Mozilla/5.0 (" ++ platform_ua ++
    ") AppleWebKit/605.1.15 (KHTML, like Gecko) Version/" ++
    toString safariVer ++ ".0 Mobile Safari/605.1.15"

/-- The fixed mobile client-hint string. -/
def mobileSecChUa : String := "\"Not(A:Brand\";v=\"8\", \"Safari\";v=\"17\""

/-- The desktop user-agent f-string (the engine/version segment grouped so
its occurrence is visible to the containment lemmas). -/
def desktopUA (platform_ua engine : String) (chromeVer : Nat) : String :=
  ("Mozilla/5.0 (" ++ platform_ua ++ ") AppleWebKit/537.36 (KHTML, like Gecko) ") ++
    (engine ++ "/" ++ toString chromeVer ++ ".0.0.0") ++ " Safari/537.36"

/-- The desktop client-hint f-string (the trailing engine/version segment
grouped). -/
def desktopSecChUa (engine : String) (chromeVer : Nat) : String :=
  ("\"Chromium\";v=\"" ++ toString chromeVer ++ "\", \"Not(A:Brand\";v=\"8\", ") ++
    ("\"" ++ engine ++ "\";v=\"" ++ toString chromeVer ++ "\"")

/-- The branch condition `platform_name in ("iPhone", "Android", "iPad")`. -/
def isMobileDraw (d : Draw) : Prop :=
  (platPair d).1 = "iPhone" ∨ (platPair d).1 = "Android" ∨ (platPair d).1 = "iPad"

instance (d : Draw) : Decidable (isMobileDraw d) := by
  unfold isMobileDraw
  infer_instance

/-- One loop iteration of `generate_browser_profiles`: builds the profile
dict for the drawn platform, engine and versions, exactly as the Python
f-strings (here factored into the named builders above) assemble it. -/
def make_profile (d : Draw) : BrowserProfile :=
  if isMobileDraw d then
    ⟨mobileUA (platPair d).2 d.safariVer, mobileSecChUa,
     "\"" ++ (platPair d).1 ++ "\"", "?1"⟩
  else
    ⟨desktopUA (platPair d).2 (engineOf d) d.chromeVer,
     desktopSecChUa (engineOf d) d.chromeVer,
     "\"" ++ (platPair d).1 ++ "\"", "?0"⟩

/-- `generate_browser_profiles(n)`: `n` profiles, the `i`-th built from the
`i`-th block of random draws. -/
def generate_browser_profiles (draws : Nat → Draw) (n : Nat) : List BrowserProfile :=
  (List.range n).map (fun i => make_profile (draws i))

/-! ## Header rotator (`HeaderRotator`) -/

/-- The rotator state: the shuffled profile pool and the cursor
(`self.pool`, `self.index`). -/
structure HeaderRotator where
  pool : List BrowserProfile
  index : Nat
deriving Repr

/-- `HeaderRotator.__init__(size)`: generate the pool, shuffle it
(`random.shuffle` modelled by the oracle `shuffle`), cursor 0. -/
def HeaderRotator.init (shuffle : List BrowserProfile → List BrowserProfile)
    (draws : Nat → Draw) (size : Nat) : HeaderRotator :=
  ⟨shuffle (generate_browser_profiles draws size), 0⟩

/-- `HeaderRotator.next()`: return `pool[index]`, bump the cursor, and when
the cursor reaches the pool length reshuffle and reset to 0.  The returned
element is read before any reshuffle. -/
def HeaderRotator.next (shuffle : List BrowserProfile → List BrowserProfile)
    (r : HeaderRotator) : BrowserProfile × HeaderRotator :=
  let header := r.pool.getD r.index default
  let i := r.index + 1
  if i ≥ r.pool.length then (header, ⟨shuffle r.pool, 0⟩)
  else (header, ⟨r.pool, i⟩)

/-- A window of `n` consecutive `next()` calls, collecting the returned
profiles and the final rotator state. -/
def HeaderRotator.window (shuffle : List BrowserProfile → List BrowserProfile) :
    Nat → HeaderRotator → List BrowserProfile × HeaderRotator
  | 0, r => ([], r)
  | n + 1, r =>
    let p := HeaderRotator.next shuffle r
    let rest := HeaderRotator.window shuffle n p.2
    (p.1 :: rest.1, rest.2)

/-! ## Origin cycle, configuration and headers -/

/-- The module-level `DOMAINS` list fed to `itertools.cycle`. -/
def DOMAINS : List String :=
  ["https://dsj77.net", "https://dsj44.com", "https://dsj35.com"]

/-- `next(DOMAINS)` on the cyclic iterator, modelled by a running index:
returns the current origin and the advanced index. -/
def domNext (i : Nat) : String × Nat :=
  (DOMAINS.getD (i % DOMAINS.length) "", i + 1)

/-- `APIConfig`: the environment-sourced configuration.  The field values
default from `os.getenv` fallbacks; here any concrete record may be
supplied. -/
structure APIConfig where
  base_url : String
  origin : String
  referer : String
  request_domain : String
  app_version : String
  timezone : String
  language : String
  referral_code : String

/-- The `os.getenv` fallback values of `APIConfig`. -/
def defaultConfig : APIConfig :=
  ⟨"api.ddjea.com", "https://dsj44.com", "https://dsj44.com/",
   "https://dsj44.com/pc/#/", "P2.9.3", "+8", "ENGLISH", "TESTSET"⟩

/-- A header dictionary: association list from header name to value.
Values are JSON values because the session token (whatever `json.loads`
produced for the `data` field) is passed as a header value verbatim;
ordinary headers are strings. -/
abbrev HMap : Type := List (String × JValue)

/-- Dictionary lookup on a header map (first binding wins). -/
def hFind (hs : HMap) (k : String) : Option JValue :=
  (hs.find? (fun p => p.1 == k)).map (·.2)

/-- Python `dict.update`: bindings of `extra` override those of `base`.
Modelled at lookup level: `extra` entries first, base entries whose key is
not overridden after. -/
def hUpdate (base extra : HMap) : HMap :=
  extra ++ base.filter (fun p => (hFind extra p.1).isNone)

/-- `_get_common_headers` minus its state effects: the header dict
assembled for one attempt from the drawn browser profile and the drawn
origin `base`. -/
def get_common_headers (cfg : APIConfig) (browser : BrowserProfile) (base : String) : HMap :=
  [("accept", .str "application/json, text/plain, */*"),
   ("accept-language", .str "en-GB,en-US;q=0.9,en;q=0.8"),
   ("app-analog", .str "false"),
   ("app-client-timezone", .str cfg.timezone),
   ("app-version", .str cfg.app_version),
   ("aws-check", .str "true"),
   ("content-type", .str "application/json;charset=UTF-8"),
   ("origin", .str base),
   ("priority", .str "u=1, i"),
   ("referer", .str (base ++ "/")),
   ("request-domain", .str (base ++ "/pc/#/")),
   ("sec-fetch-dest", .str "empty"),
   ("sec-fetch-mode", .str "cors"),
   ("sec-fetch-site", .str "cross-site"),
   ("set-aws", .str "true"),
   ("set-language", .str cfg.language),
   ("x-requested-with", .str "XMLHttpRequest"),
   ("user-agent", .str browser.userAgent),
   ("sec-ch-ua", .str browser.secChUa),
   ("sec-ch-ua-platform", .str browser.secChUaPlatform),
   ("sec-ch-ua-mobile", .str browser.secChUaMobile)]

/-! ## Client state and the resilient request executor (`_make_request`) -/

/-- The mutable state touched by one client: the header rotator, the
position in the global origin cycle, and the session token
(`self.token`, initially `None`). -/
structure ClientState where
  rotator : HeaderRotator
  domIdx : Nat
  token : Option JValue

/-- Replace the stored session token (`self.token = ...`). -/
def ClientState.setToken (st : ClientState) (t : Option JValue) : ClientState :=
  ⟨st.rotator, st.domIdx, t⟩

/-- What the network returns for one attempt: an HTTP response with status
and raw body text, or a transport-level error
(`http.client.HTTPException` / `TimeoutError`). -/
inductive Outcome where
  | response : Nat → String → Outcome
  | transportError : Outcome

/-- The error taxonomy of the client, one constructor per distinct
`raise Exception(...)` site. -/
inductive ApiError where
  | invalidResponseBody : String → ApiError
  | unexpectedStatus : Nat → String → ApiError
  | retriesExhausted : ApiError
  | notAuthenticated : ApiError
  | authenticationFailed : JValue → ApiError
  | pyTypeError : ApiError

/-- Observable side effects of the executor: a network attempt (with its
zero-based index, method, endpoint, serialized payload and full header
set) or a `time.sleep` of a given duration in seconds. -/
inductive Ev where
  | attempt : Nat → String → String → Option JValue → HMap → Ev
  | sleep : Rat → Ev

/-- Whether an event is a network attempt. -/
def Ev.isAttempt : Ev → Bool
  | .attempt _ _ _ _ _ => true
  | .sleep _ => false

/-- Whether an event is a sleep. -/
def Ev.isSleep : Ev → Bool
  | .attempt _ _ _ _ _ => false
  | .sleep _ => true

/-- The headers carried by an attempt event (empty for a sleep). -/
def Ev.headers : Ev → HMap
  | .attempt _ _ _ _ hs => hs
  | .sleep _ => []

/-- `random.uniform(a, b)`: `a + (b - a) * u` where `u` is the underlying
`random.random()` draw in `[0, 1)`. -/
def uniform (a b u : Rat) : Rat := a + (b - a) * u

/-- The external collaborators of the executor, all modelled as oracles:
the JSON parser (`json.loads`, `none` on a parse failure), the network
(outcome of the attempt with a given zero-based index), the in-place
shuffle used by the rotator, and the three streams of `random.random()`
draws behind the three `random.uniform` call sites (429 backoff jitter,
401/403 flat delay, network-error jitter), indexed by attempt. -/
structure Env where
  cfg : APIConfig
  parse : String → Option JValue
  transport : Nat → Outcome
  shuffle : List BrowserProfile → List BrowserProfile
  u429 : Nat → Rat
  uBlocked : Nat → Rat
  uNet : Nat → Rat

/-- `self._get_common_headers()` with its state effects: draws the next
browser profile from the rotator and the next origin from the cycle. -/
def getCommonHeadersS (env : Env) (st : ClientState) : HMap × ClientState :=
  let p := HeaderRotator.next env.shuffle st.rotator
  let d := domNext st.domIdx
  (get_common_headers env.cfg p.1 d.1, ⟨p.2, d.2, st.token⟩)

/-- The retry loop body of `_make_request`: `i` is the current zero-based
attempt index, `n` the number of attempts still allowed.  Classification
order follows the source: 2xx → parse (parse failure is a permanent
`invalidResponseBody`); 429 → sleep `2^i + uniform(0.5, 1.5)` and retry;
401/403 → sleep `uniform(2.0, 4.0)` and retry; other statuses → permanent
`unexpectedStatus`; transport error → sleep `2^i + uniform(1.0, 2.0)` and
retry.  Exhaustion raises `retriesExhausted`. -/
def requestLoop (env : Env) (method endpoint : String) (body : Option JValue)
    (extra : HMap) : Nat → Nat → ClientState →
    Except ApiError JValue × ClientState × List Ev
  | _, 0, st => (.error .retriesExhausted, st, [])
  | i, n + 1, st =>
    let hs := getCommonHeadersS env st
    let headers := hUpdate hs.1 extra
    let st1 := hs.2
    let att := Ev.attempt i method endpoint body headers
    match env.transport i with
    | .transportError =>
      let w := 2 ^ i + uniform 1 2 (env.uNet i)
      let rest := requestLoop env method endpoint body extra (i + 1) n st1
      (rest.1, rest.2.1, att :: Ev.sleep w :: rest.2.2)
    | .response status bodyText =>
      if status = 200 ∨ status = 201 then
        match env.parse bodyText with
        | some j => (.ok j, st1, [att])
        | none => (.error (.invalidResponseBody bodyText), st1, [att])
      else if status = 429 then
        let w := 2 ^ i + uniform (1 / 2) (3 / 2) (env.u429 i)
        let rest := requestLoop env method endpoint body extra (i + 1) n st1
        (rest.1, rest.2.1, att :: Ev.sleep w :: rest.2.2)
      else if status = 401 ∨ status = 403 then
        let w := uniform 2 4 (env.uBlocked i)
        let rest := requestLoop env method endpoint body extra (i + 1) n st1
        (rest.1, rest.2.1, att :: Ev.sleep w :: rest.2.2)
      else
        (.error (.unexpectedStatus status bodyText), st1, [att])

/-- `_make_request`: serializes the payload (`json.dumps(payload) if
payload else None`, so a falsy payload sends no body) and runs the retry
loop `for attempt in range(max_retries)`; a non-positive `max_retries`
yields an empty range. -/
def make_request (env : Env) (method endpoint : String) (payload : Option JValue)
    (extra : HMap) (max_retries : Int) (st : ClientState) :
    Except ApiError JValue × ClientState × List Ev :=
  let body := if pyTruthy payload then payload else none
  requestLoop env method endpoint body extra 0 max_retries.toNat st

/-! ## API session operations (`BGolAPIClient` methods) -/

/-- The login payload `{"password": ..., "isValidator": ..., "email": ...}`. -/
def loginPayload (email password : String) (is_validator : Bool) : JValue :=
  .obj [("password", .str password), ("isValidator", .bool is_validator),
        ("email", .str email)]

/-- `login(email, password, is_validator)`: posts the credentials, reads
`response.get("data")`, raises the authentication failure when that field
is absent or falsy, and stores the token only on success.  A non-object
response would raise an `AttributeError` in Python at `.get`; that path is
folded into `pyTypeError`. -/
def login (env : Env) (max_retries : Int) (email password : String)
    (is_validator : Bool) (st : ClientState) :
    Except ApiError JValue × ClientState × List Ev :=
  let r := make_request env "POST" "/api/app/user/login"
    (some (loginPayload email password is_validator)) [] max_retries st
  match r with
  | (.error e, st1, evs) => (.error e, st1, evs)
  | (.ok resp, st1, evs) =>
    match resp with
    | .obj fields =>
      match objGet fields "data" with
      | some tok =>
        if jTruthy tok then (.ok tok, st1.setToken (some tok), evs)
        else (.error (.authenticationFailed resp), st1, evs)
      | none => (.error (.authenticationFailed resp), st1, evs)
    | _ => (.error .pyTypeError, st1, evs)

/-- The token guard shared by every authenticated operation:
`if not self.token: raise Exception("Not authenticated. ...")`, then run
the request with `{"app-login-token": self.token}` as the additional
headers. -/
def withToken {A : Type} (st : ClientState)
    (k : JValue → Except ApiError A × ClientState × List Ev) :
    Except ApiError A × ClientState × List Ev :=
  match st.token with
  | none => (.error .notAuthenticated, st, [])
  | some v =>
    if jTruthy v then k v else (.error .notAuthenticated, st, [])

/-- `apply_referral_code(code)`. -/
def apply_referral_code (env : Env) (max_retries : Int) (code : String)
    (st : ClientState) : Except ApiError JValue × ClientState × List Ev :=
  withToken st (fun v =>
    make_request env "POST" "/api/app/second/share/user/follow/code"
      (some (.obj [("code", .str code)])) [("app-login-token", v)] max_retries st)

/-- `follow_share(share_id)`. -/
def follow_share (env : Env) (max_retries : Int) (share_id : String)
    (st : ClientState) : Except ApiError JValue × ClientState × List Ev :=
  withToken st (fun v =>
    make_request env "POST" "/api/app/second/share/user/follow"
      (some (.obj [("shareId", .str share_id)])) [("app-login-token", v)] max_retries st)

/-- `logout()`. -/
def logout (env : Env) (max_retries : Int) (st : ClientState) :
    Except ApiError JValue × ClientState × List Ev :=
  withToken st (fun v =>
    make_request env "POST" "/api/app/basis/article"
      (some (.obj [("typeId", .num 22)])) [("app-login-token", v)] max_retries st)

/-- The projection at the end of `get_show_all_followed`:
`response.get("data", {}).get("showAllFollowed", [])`, then `show_all[0]`
if the list is truthy, else `None`.  Non-dict / non-list shapes that would
raise in Python (`AttributeError` on `.get`, `TypeError`/`KeyError` on
`[0]`; Python returns the first character for a string) are folded into
`pyTypeError`; no claim exercises them. -/
def showAllProjection (resp : JValue) : Except ApiError (Option JValue) :=
  match resp with
  | .obj fields =>
    let dataV := (objGet fields "data").getD (.obj [])
    match dataV with
    | .obj f2 =>
      let sa := (objGet f2 "showAllFollowed").getD (.arr [])
      if jTruthy sa then
        match sa with
        | .arr (x :: _) => .ok (some x)
        | _ => .error .pyTypeError
      else .ok none
    | _ => .error .pyTypeError
  | _ => .error .pyTypeError

/-- `get_show_all_followed()`: token-guarded request to the list endpoint,
then the `showAllFollowed` projection on the response. -/
def get_show_all_followed (env : Env) (max_retries : Int) (st : ClientState) :
    Except ApiError (Option JValue) × ClientState × List Ev :=
  withToken st (fun v =>
    match make_request env "POST" "/api/app/second/share/user/list"
      (some (.obj [("pageNum", .num 0), ("pageSize", .num 5),
                   ("isFinish", .bool false)]))
      [("app-login-token", v)] max_retries st with
    | (.error e, st1, evs) => (.error e, st1, evs)
    | (.ok resp, st1, evs) => (showAllProjection resp, st1, evs))

/-! ## Substring containment and Python string builtins

The Python string builtins (`strip`, `lstrip`, `lower`, `startswith`,
`split(",")`, substring search) are external to the repository; they are
modelled here by executable character-list implementations. -/

/-- `takesLead sub s`: `sub` is an initial segment of `s`. -/
def takesLead : List Char → List Char → Bool
  | [], _ => true
  | _ :: _, [] => false
  | a :: as, b :: bs => a == b && takesLead as bs

/-- `hasSub sub s`: `sub` occurs contiguously somewhere in `s`. -/
def hasSub (sub : List Char) : List Char → Bool
  | [] => takesLead sub []
  | s@(_ :: t) => takesLead sub s || hasSub sub t

/-- Substring test on strings. -/
def strContains (s sub : String) : Bool := hasSub sub.data s.data

/-- Python `str.strip()`: drop whitespace from both ends. -/
def pyStrip (s : String) : String :=
  ⟨((s.data.dropWhile Char.isWhitespace).reverse.dropWhile Char.isWhitespace).reverse⟩

/-- Python `str.lstrip()`: drop whitespace from the left end. -/
def pyLStrip (s : String) : String := ⟨s.data.dropWhile Char.isWhitespace⟩

/-- Python `str.startswith(t)`. -/
def pyStartsWith (s t : String) : Bool := takesLead t.data s.data

/-- Python `str.lower()` (ASCII-level, as the inputs here are ASCII). -/
def pyLower (s : String) : String := ⟨s.data.map Char.toLower⟩

/-- Helper for `pySplitComma`: accumulate the current field (reversed). -/
def pySplitCommaAux : List Char → List Char → List String
  | [], acc => [⟨acc.reverse⟩]
  | c :: rest, acc =>
    if c == ',' then ⟨acc.reverse⟩ :: pySplitCommaAux rest []
    else pySplitCommaAux rest (c :: acc)

/-- The comma field-splitting the `csv` module performs on these inputs
(no quoting: no claim input uses quoted fields). -/
def pySplitComma (s : String) : List String := pySplitCommaAux s.data []

/-! ## CSV credential loading (`read_credentials_from_csv`) -/

/-- One credentials record (`AccountCredentials`). -/
structure AccountCredentials where
  email : String
  password : String
  is_validator : Bool
deriving DecidableEq, Repr

/-- Errors raised during CSV parsing: the `ValueError` for missing
required columns (carrying the fieldnames found), and the `AttributeError`
Python raises when `.strip()` is called on the `None` that `DictReader`
fills in for a row shorter than the header. -/
inductive CsvError where
  | missingColumns : List String → CsvError
  | pyNoneStrip : CsvError
deriving DecidableEq, Repr

/-- `row.get(k, default)` on a `csv.DictReader` row: keys are exactly the
header fieldnames; a key present in the header but beyond the end of a
short row maps to Python `None` (modelled as `none`); a key absent from
the header yields the supplied default. -/
def rowGet (fieldnames row : List String) (k dflt : String) : Option String :=
  match fieldnames.findIdx? (· == k) with
  | some i => row.get? i
  | none => some dflt

/-- The per-row body of the reader loop: strip email and password, skip
the row (with a warning) when the stripped email is empty, otherwise parse
`is_validator` (defaulting to `"true"` when the column is absent) and
build the record.  `.ok none` is a skipped row. -/
def parseRow (fieldnames row : List String) :
    Except CsvError (Option AccountCredentials) :=
  match rowGet fieldnames row "email" "" with
  | none => .error .pyNoneStrip
  | some e =>
    match rowGet fieldnames row "password" "" with
    | none => .error .pyNoneStrip
    | some p =>
      let email := pyStrip e
      let password := pyStrip p
      if email = "" then .ok none
      else
        match rowGet fieldnames row "is_validator" "true" with
        | none => .error .pyNoneStrip
        | some vs =>
          let s := pyLower (pyStrip vs)
          .ok (some ⟨email, password, ["true", "1", "yes", "y"].contains s⟩)

/-- Fold of the reader loop over the data rows (each split on commas). -/
def processRows (fieldnames : List String) :
    List String → Except CsvError (List AccountCredentials)
  | [] => .ok []
  | r :: rest =>
    match parseRow fieldnames (pySplitComma r) with
    | .error err => .error err
    | .ok none => processRows fieldnames rest
    | .ok (some c) =>
      match processRows fieldnames rest with
      | .error err => .error err
      | .ok cs => .ok (c :: cs)

/-- `read_credentials_from_csv` on the file contents, given as the list of
its lines: drop lines that are blank after stripping or whose
left-stripped form starts with `#`; the first surviving line is the
header; require the `email` and `password` columns; process the remaining
rows.  CSV quoting is not modelled (fields are split on commas); no claim
input uses quoted fields. -/
def read_credentials_from_csv (lines : List String) :
    Except CsvError (List AccountCredentials) :=
  let filtered := lines.filter
    (fun l => (pyStrip l != "") && !(pyStartsWith (pyLStrip l) "#"))
  match filtered with
  | [] => .error (.missingColumns [])
  | header :: rows =>
    let fieldnames := pySplitComma header
    if fieldnames.contains "email" && fieldnames.contains "password" then
      processRows fieldnames rows
    else .error (.missingColumns fieldnames)

/-- Claim-independent test fixtures used by witness theorems. -/
def testProfileA : BrowserProfile := ⟨"uaA", "scA", "\"Windows\"", "?0"⟩

/-- A second, distinct test profile. -/
def testProfileB : BrowserProfile := ⟨"uaB", "scB", "\"iPhone\"", "?1"⟩

/-- A concrete two-element pool. -/
def testPool : List BrowserProfile := [testProfileA, testProfileB]

/-- A fresh client state (no token) over the concrete pool. -/
def testState : ClientState := ⟨⟨testPool, 0⟩, 0, none⟩

/-- A client state holding the token `"T1"`. -/
def testStateTok : ClientState := ⟨⟨testPool, 0⟩, 0, some (.str "T1")⟩

/-- An environment over the default configuration with all random draws
pinned to 0 and the reverse function standing in for `random.shuffle`. -/
def baseEnv (t : Nat → Outcome) (p : String → Option JValue) : Env :=
  ⟨defaultConfig, p, t, List.reverse, fun _ => 0, fun _ => 0, fun _ => 0⟩

/-- The property that every network attempt in a trace carries headers
that are exactly the standard per-attempt headers (for some drawn browser
profile and origin) updated with the bearer token header
`app-login-token` bound to `v`. -/
def attachOk (cfg : APIConfig) (v : JValue) (evs : List Ev) : Prop :=
  ∀ e ∈ evs, e.isAttempt = true →
    (∃ browser base, e.headers =
      hUpdate (get_common_headers cfg browser base) [("app-login-token", v)]) ∧
    hFind e.headers "app-login-token" = some v

/-! ## Lemmas about substring containment -/

theorem takesLead_self_append (m b : List Char) : takesLead m (m ++ b) = true := by
  induction m with
  | nil => rfl
  | cons a as ih => simp [takesLead, ih]

theorem hasSub_self_append (m b : List Char) : hasSub m (m ++ b) = true := by
  cases m with
  | nil => cases b <;> simp [hasSub, takesLead]
  | cons a as =>
    simp only [hasSub, List.cons_append, Bool.or_eq_true]
    exact Or.inl (takesLead_self_append (a :: as) b)

theorem hasSub_parts (a m b : List Char) : hasSub m (a ++ m ++ b) = true := by
  induction a with
  | nil => simpa using hasSub_self_append m b
  | cons x xs ih =>
    simp only [hasSub, List.cons_append, Bool.or_eq_true]
    exact Or.inr ih

theorem strContains_parts (a m b : String) : strContains (a ++ m ++ b) m = true := by
  show hasSub m.data (a ++ m ++ b).data = true
  rw [String.data_append, String.data_append]
  exact hasSub_parts a.data m.data b.data

theorem strContains_tail (a m : String) : strContains (a ++ m) m = true := by
  show hasSub m.data (a ++ m).data = true
  rw [String.data_append]
  simpa using hasSub_parts a.data m.data []

/-! ## Lemmas about header maps -/

theorem hFind_nil (k : String) : hFind [] k = none := rfl

theorem find?_append_of_some {α : Type} (l₁ l₂ : List α) (p : α → Bool) (a : α)
    (h : l₁.find? p = some a) : (l₁ ++ l₂).find? p = some a := by
  induction l₁ with
  | nil => simp [List.find?] at h
  | cons x xs ih =>
    by_cases hx : p x = true
    · rw [List.find?_cons_of_pos _ hx] at h
      rw [List.cons_append, List.find?_cons_of_pos _ hx]
      exact h
    · rw [List.find?_cons_of_neg _ hx] at h
      rw [List.cons_append, List.find?_cons_of_neg _ hx]
      exact ih h

theorem find?_append_of_none {α : Type} (l₁ l₂ : List α) (p : α → Bool)
    (h : l₁.find? p = none) : (l₁ ++ l₂).find? p = l₂.find? p := by
  induction l₁ with
  | nil => rfl
  | cons x xs ih =>
    by_cases hx : p x = true
    · rw [List.find?_cons_of_pos _ hx] at h
      simp at h
    · rw [List.find?_cons_of_neg _ hx] at h
      rw [List.cons_append, List.find?_cons_of_neg _ hx]
      exact ih h

theorem find?_filter_of_imp {α : Type} (l : List α) (q f : α → Bool)
    (h : ∀ x, q x = true → f x = true) :
    (l.filter f).find? q = l.find? q := by
  induction l with
  | nil => rfl
  | cons a l ih =>
    by_cases hf : f a
    · by_cases hq : q a
      · simp [List.filter_cons, hf, List.find?, hq]
      · simp only [List.filter_cons, hf, if_true, List.find?, hq]
        simpa [List.find?, hq] using ih
    · have hq : q a = false := by
        by_contra hc
        exact hf (h a (by simpa using hc))
      simp only [List.filter_cons, hf, if_false, List.find?, hq]
      simpa [List.find?, hq] using ih

theorem hFind_hUpdate_hit (base extra : HMap) (k : String) (v : JValue)
    (h : hFind extra k = some v) : hFind (hUpdate base extra) k = some v := by
  unfold hUpdate
  unfold hFind at h ⊢
  cases hfe : extra.find? (fun p => p.1 == k) with
  | none => rw [hfe] at h; simp at h
  | some pr =>
    rw [hfe] at h
    rw [find?_append_of_some _ _ _ pr hfe]
    exact h

theorem hFind_hUpdate_miss (base extra : HMap) (k : String)
    (h : hFind extra k = none) : hFind (hUpdate base extra) k = hFind base k := by
  unfold hUpdate hFind
  have hfe : extra.find? (fun p => p.1 == k) = none := by
    unfold hFind at h
    cases hfe : extra.find? (fun p => p.1 == k) with
    | none => rfl
    | some p => rw [hfe] at h; simp at h
  rw [find?_append_of_none _ _ _ hfe]
  congr 1
  apply find?_filter_of_imp
  intro x hx
  have hxk : x.1 = k := by simpa using hx
  rw [hxk, hfe]
  rfl

/-! ## Lemmas about the rotator -/

theorem List.drop_eq_getD_cons {α : Type} (d : α) :
    ∀ (l : List α) (i : Nat), i < l.length → l.drop i = l.getD i d :: l.drop (i + 1)
  | _ :: _, 0, _ => rfl
  | _ :: l, i + 1, h =>
    List.drop_eq_getD_cons d l i (Nat.lt_of_succ_lt_succ h)

theorem HeaderRotator.window_from_cursor
    (shuffle : List BrowserProfile → List BrowserProfile) :
    ∀ (n : Nat) (pool : List BrowserProfile) (i : Nat),
      i + n = pool.length →
      (HeaderRotator.window shuffle n ⟨pool, i⟩).1 = pool.drop i := by
  intro n
  induction n with
  | zero =>
    intro pool i h
    have hle : pool.length ≤ i := by omega
    simp [HeaderRotator.window, List.drop_eq_nil_iff, hle]
  | succ n ih =>
    intro pool i h
    have hi : i < pool.length := by omega
    rw [List.drop_eq_getD_cons default pool i hi]
    simp only [HeaderRotator.window, HeaderRotator.next]
    by_cases hend : i + 1 ≥ pool.length
    · have hn : n = 0 := by omega
      subst hn
      have hle : pool.length ≤ i + 1 := hend
      simp [hend, HeaderRotator.window, List.drop_eq_nil_iff, hle]
    · simp only [hend, if_false]
      have := ih pool (i + 1) (by omega)
      simpa using this

/-! ## Lemmas about the request executor -/

theorem requestLoop_token (env : Env) (method endpoint : String)
    (body : Option JValue) (extra : HMap) :
    ∀ (n i : Nat) (st : ClientState),
      ((requestLoop env method endpoint body extra i n st).2.1).token = st.token := by
  intro n
  induction n with
  | zero => intro i st; rfl
  | succ n ih =>
    intro i st
    simp only [requestLoop]
    cases ht : env.transport i with
    | transportError =>
      simpa using ih (i + 1) (getCommonHeadersS env st).2
    | response status bodyText =>
      by_cases h2 : status = 200 ∨ status = 201
      · simp only [h2, if_true]
        cases hp : env.parse bodyText <;> rfl
      · by_cases h429 : status = 429
        · simp only [h2, if_false, h429, if_true]
          simpa using ih (i + 1) (getCommonHeadersS env st).2
        · by_cases h4 : status = 401 ∨ status = 403
          · simp only [h2, if_false, h429, if_false, h4, if_true]
            simpa using ih (i + 1) (getCommonHeadersS env st).2
          · simp only [h2, if_false, h429, if_false, h4, if_false]
            rfl

theorem make_request_token (env : Env) (method endpoint : String)
    (payload : Option JValue) (extra : HMap) (max_retries : Int) (st : ClientState) :
    ((make_request env method endpoint payload extra max_retries st).2.1).token = st.token :=
  requestLoop_token env method endpoint _ extra max_retries.toNat 0 st

theorem requestLoop_always403 (env : Env) (method endpoint : String)
    (body : Option JValue) (extra : HMap)
    (h403 : ∀ i, ∃ b, env.transport i = .response 403 b) :
    ∀ (n i : Nat) (st : ClientState),
      (requestLoop env method endpoint body extra i n st).1 = .error .retriesExhausted ∧
      (((requestLoop env method endpoint body extra i n st).2.2).filter Ev.isAttempt).length = n := by
  intro n
  induction n with
  | zero => intro i st; exact ⟨rfl, rfl⟩
  | succ n ih =>
    intro i st
    obtain ⟨b, hb⟩ := h403 i
    simp only [requestLoop, hb]
    norm_num
    obtain ⟨ih1, ih2⟩ := ih (i + 1) (getCommonHeadersS env st).2
    refine ⟨ih1, ?_⟩
    simp only [List.filter, Ev.isAttempt, List.length_cons]
    rw [ih2]

theorem requestLoop_attempts_shape (env : Env) (method endpoint : String)
    (body : Option JValue) (extra : HMap) :
    ∀ (n i : Nat) (st : ClientState),
      ∀ e ∈ (requestLoop env method endpoint body extra i n st).2.2,
        e.isAttempt = true →
        ∃ j browser base, e = Ev.attempt j method endpoint body
          (hUpdate (get_common_headers env.cfg browser base) extra) := by
  intro n
  induction n with
  | zero => intro i st e he; simp [requestLoop] at he
  | succ n ih =>
    intro i st e he hatt
    have hhead : ∀ e', e' = Ev.attempt i method endpoint body
        (hUpdate (getCommonHeadersS env st).1 extra) →
        ∃ j browser base, e' = Ev.attempt j method endpoint body
          (hUpdate (get_common_headers env.cfg browser base) extra) := by
      intro e' he'
      exact ⟨i, (HeaderRotator.next env.shuffle st.rotator).1, (domNext st.domIdx).1, he'⟩
    cases ht : env.transport i with
    | transportError =>
      simp only [requestLoop, ht] at he
      simp only [List.mem_cons] at he
      rcases he with he | he | he
      · exact hhead e he
      · rw [he] at hatt; simp [Ev.isAttempt] at hatt
      · exact ih (i + 1) (getCommonHeadersS env st).2 e he hatt
    | response status bodyText =>
      simp only [requestLoop, ht] at he
      by_cases h2 : status = 200 ∨ status = 201
      · rw [if_pos h2] at he
        cases hp : env.parse bodyText with
        | some j => rw [hp] at he; simp only [List.mem_cons, List.not_mem_nil, or_false] at he
                    exact hhead e he
        | none => rw [hp] at he; simp only [List.mem_cons, List.not_mem_nil, or_false] at he
                  exact hhead e he
      · rw [if_neg h2] at he
        by_cases h429 : status = 429
        · rw [if_pos h429] at he
          simp only [List.mem_cons] at he
          rcases he with he | he | he
          · exact hhead e he
          · rw [he] at hatt; simp [Ev.isAttempt] at hatt
          · exact ih (i + 1) (getCommonHeadersS env st).2 e he hatt
        · rw [if_neg h429] at he
          by_cases h4 : status = 401 ∨ status = 403
          · rw [if_pos h4] at he
            simp only [List.mem_cons] at he
            rcases he with he | he | he
            · exact hhead e he
            · rw [he] at hatt; simp [Ev.isAttempt] at hatt
            · exact ih (i + 1) (getCommonHeadersS env st).2 e he hatt
          · rw [if_neg h4] at he
            simp only [List.mem_cons, List.not_mem_nil, or_false] at he
            exact hhead e he

theorem make_request_attachOk (env : Env) (method endpoint : String)
    (payload : Option JValue) (v : JValue) (max_retries : Int) (st : ClientState) :
    attachOk env.cfg v
      (make_request env method endpoint payload [("app-login-token", v)] max_retries st).2.2 := by
  intro e he hatt
  obtain ⟨j, browser, base, hshape⟩ :=
    requestLoop_attempts_shape env method endpoint _ [("app-login-token", v)]
      max_retries.toNat 0 st e he hatt
  constructor
  · exact ⟨browser, base, by rw [hshape]; rfl⟩
  · rw [hshape]
    show hFind (hUpdate (get_common_headers env.cfg browser base)
      [("app-login-token", v)]) "app-login-token" = some v
    apply hFind_hUpdate_hit
    rfl

theorem withToken_none {A : Type} (st : ClientState)
    (k : JValue → Except ApiError A × ClientState × List Ev)
    (hv : st.token = none) :
    withToken st k = (.error .notAuthenticated, st, []) := by
  unfold withToken
  rw [hv]

theorem withToken_some {A : Type} (st : ClientState) (v : JValue)
    (k : JValue → Except ApiError A × ClientState × List Ev)
    (hv : st.token = some v) (htr : jTruthy v = true) :
    withToken st k = k v := by
  unfold withToken
  rw [hv]
  exact if_pos htr

/-! ## Claim theorems -/

/-- Claim C1: for every 2xx (status 200 or 201) response whose body is not
parseable as JSON, `_make_request` fails immediately and permanently with
the `InvalidResponseBody` error: it does not sleep, does not retry, and
consumes no further attempts, regardless of how many attempts remain in
the budget. -/
theorem claim_C1 (env : Env) (method endpoint : String) (payload : Option JValue)
    (extra : HMap) (st : ClientState) (max_retries : Int) (status : Nat) (body : String)
    (hm : 1 ≤ max_retries)
    (ht : env.transport 0 = .response status body)
    (hs : status = 200 ∨ status = 201)
    (hp : env.parse body = none) :
    (make_request env method endpoint payload extra max_retries st).1 =
      .error (.invalidResponseBody body) ∧
    ((make_request env method endpoint payload extra max_retries st).2.2).filter
      Ev.isSleep = [] ∧
    (((make_request env method endpoint payload extra max_retries st).2.2).filter
      Ev.isAttempt).length = 1 := by
  obtain ⟨k, hk⟩ : ∃ k, max_retries.toNat = k + 1 := ⟨max_retries.toNat - 1, by omega⟩
  unfold make_request
  rw [hk]
  simp only [requestLoop, ht, if_pos hs, hp]
  simp [Ev.isSleep, Ev.isAttempt, List.filter]

/-- Witness for C1 at a concrete environment: one 200 response with the
unparseable body `"oops"` and a budget of 7 attempts. -/
theorem claim_C1_witness :
    (make_request (baseEnv (fun _ => .response 200 "oops") (fun _ => none))
      "POST" "/x" none [] 7 testState).1 = .error (.invalidResponseBody "oops") ∧
    ((make_request (baseEnv (fun _ => .response 200 "oops") (fun _ => none))
      "POST" "/x" none [] 7 testState).2.2).filter Ev.isSleep = [] ∧
    (((make_request (baseEnv (fun _ => .response 200 "oops") (fun _ => none))
      "POST" "/x" none [] 7 testState).2.2).filter Ev.isAttempt).length = 1 :=
  claim_C1 (baseEnv (fun _ => .response 200 "oops") (fun _ => none))
    "POST" "/x" none [] testState 7 200 "oops" (by norm_num) rfl (Or.inl rfl) rfl

/-- Claim C2: for every transport that returns status 403 on every
attempt, `_make_request` with configured maximum attempt count `m` issues
exactly `m` attempts (never fewer, never more) and then fails with the
`RetriesExhausted` error. -/
theorem claim_C2 (env : Env) (m : Nat) (method endpoint : String)
    (payload : Option JValue) (extra : HMap) (st : ClientState)
    (h403 : ∀ i, ∃ b, env.transport i = .response 403 b) :
    (make_request env method endpoint payload extra (m : Int) st).1 =
      .error .retriesExhausted ∧
    (((make_request env method endpoint payload extra (m : Int) st).2.2).filter
      Ev.isAttempt).length = m := by
  have hm : ((m : Int)).toNat = m := Int.toNat_natCast m
  unfold make_request
  rw [hm]
  exact requestLoop_always403 env method endpoint _ extra h403 m 0 st

/-- Witness for C2 at a concrete environment: every attempt answers 403
with body `"no"`, and the budget is 3 attempts. -/
theorem claim_C2_witness :
    (make_request (baseEnv (fun _ => .response 403 "no") (fun _ => none))
      "POST" "/x" none [] (3 : Nat) testState).1 = .error .retriesExhausted ∧
    (((make_request (baseEnv (fun _ => .response 403 "no") (fun _ => none))
      "POST" "/x" none [] (3 : Nat) testState).2.2).filter Ev.isAttempt).length = 3 :=
  claim_C2 (baseEnv (fun _ => .response 403 "no") (fun _ => none)) 3
    "POST" "/x" none [] testState (fun _ => ⟨"no", rfl⟩)

/-- Claim C9 (implicit): if `_make_request` is called with a maximum
attempt count of zero or less, it raises the `RetriesExhausted` error
immediately, without issuing any network attempt, without sleeping, and
without drawing any identity or origin (the state is returned untouched
and the event trace is empty). -/
theorem claim_C9 (env : Env) (method endpoint : String) (payload : Option JValue)
    (extra : HMap) (st : ClientState) (max_retries : Int)
    (h : max_retries ≤ 0) :
    make_request env method endpoint payload extra max_retries st =
      (.error .retriesExhausted, st, []) := by
  have h0 : max_retries.toNat = 0 := by omega
  unfold make_request
  rw [h0]
  rfl

/-- Witness for C9 at a concrete environment and a budget of `-2`. -/
theorem claim_C9_witness :
    make_request (baseEnv (fun _ => .response 200 "ok") (fun _ => none))
      "POST" "/x" none [] (-2) testState = (.error .retriesExhausted, testState, []) :=
  claim_C9 (baseEnv (fun _ => .response 200 "ok") (fun _ => none))
    "POST" "/x" none [] testState (-2) (by norm_num)

/-- Claim C3: for every attempt with zero-based index `i`, the delay the
executor sleeps before the next attempt is determined by the retry class:
status 429 sleeps `2^i` seconds plus a jitter drawn from `[0.5, 1.5)`;
status 401 or 403 sleeps a flat random delay drawn from `[2.0, 4.0)`
independent of `i`; a transport-level error sleeps `2^i` seconds plus a
jitter drawn from `[1.0, 2.0)`.  The underlying `random.random()` draws
are the oracle streams, constrained to `[0, 1)`. -/
theorem claim_C3 (env : Env) (method endpoint : String) (body : Option JValue)
    (extra : HMap) (i n : Nat) (st : ClientState) :
    (∀ b, env.transport i = .response 429 b →
      0 ≤ env.u429 i → env.u429 i < 1 →
      ∃ j, ((requestLoop env method endpoint body extra i (n + 1) st).2.2).get? 1 =
          some (.sleep (2 ^ i + j)) ∧ 1 / 2 ≤ j ∧ j < 3 / 2) ∧
    (∀ s b, (s = 401 ∨ s = 403) → env.transport i = .response s b →
      0 ≤ env.uBlocked i → env.uBlocked i < 1 →
      ∃ d, ((requestLoop env method endpoint body extra i (n + 1) st).2.2).get? 1 =
          some (.sleep d) ∧ 2 ≤ d ∧ d < 4) ∧
    (env.transport i = .transportError →
      0 ≤ env.uNet i → env.uNet i < 1 →
      ∃ j, ((requestLoop env method endpoint body extra i (n + 1) st).2.2).get? 1 =
          some (.sleep (2 ^ i + j)) ∧ 1 ≤ j ∧ j < 2) := by
  refine ⟨?_, ?_, ?_⟩
  · intro b ht hu0 hu1
    refine ⟨uniform (1 / 2) (3 / 2) (env.u429 i), ?_, ?_, ?_⟩
    · simp only [requestLoop, ht]
      rw [if_pos trivial]
      rfl
    · unfold uniform
      nlinarith
    · unfold uniform
      nlinarith
  · intro s b hs ht hu0 hu1
    refine ⟨uniform 2 4 (env.uBlocked i), ?_, ?_, ?_⟩
    · rcases hs with h | h <;> subst h <;> simp only [requestLoop, ht] <;>
        rw [if_neg (by norm_num), if_neg (by norm_num), if_pos (by norm_num)] <;> rfl
    · unfold uniform
      nlinarith
    · unfold uniform
      nlinarith
  · intro ht hu0 hu1
    refine ⟨uniform 1 2 (env.uNet i), ?_, ?_, ?_⟩
    · simp only [requestLoop, ht]
      rfl
    · unfold uniform
      nlinarith
    · unfold uniform
      nlinarith

/-- Witness for C3 at three concrete environments (429, 403 and transport
error on attempt index 0), each with the jitter draw pinned to 0. -/
theorem claim_C3_witness :
    (∃ j, ((requestLoop (baseEnv (fun _ => .response 429 "r") (fun _ => none))
        "POST" "/x" none [] 0 1 testState).2.2).get? 1 =
        some (.sleep (2 ^ 0 + j)) ∧ 1 / 2 ≤ j ∧ j < 3 / 2) ∧
    (∃ d, ((requestLoop (baseEnv (fun _ => .response 403 "b") (fun _ => none))
        "POST" "/x" none [] 0 1 testState).2.2).get? 1 =
        some (.sleep d) ∧ 2 ≤ d ∧ d < 4) ∧
    (∃ j, ((requestLoop (baseEnv (fun _ => .transportError) (fun _ => none))
        "POST" "/x" none [] 0 1 testState).2.2).get? 1 =
        some (.sleep (2 ^ 0 + j)) ∧ 1 ≤ j ∧ j < 2) :=
  ⟨(claim_C3 (baseEnv (fun _ => .response 429 "r") (fun _ => none))
      "POST" "/x" none [] 0 0 testState).1 "r" rfl (by norm_num [baseEnv]) (by norm_num [baseEnv]),
   (claim_C3 (baseEnv (fun _ => .response 403 "b") (fun _ => none))
      "POST" "/x" none [] 0 0 testState).2.1 403 "b" (Or.inr rfl) rfl
      (by norm_num [baseEnv]) (by norm_num [baseEnv]),
   (claim_C3 (baseEnv (fun _ => .transportError) (fun _ => none))
      "POST" "/x" none [] 0 0 testState).2.2 rfl (by norm_num [baseEnv]) (by norm_num [baseEnv])⟩

/-- Claim C4: for every pool size `n ≥ 1`, any window of `n` consecutive
calls to `HeaderRotator.next` starting from cursor 0 (a fresh rotator or a
just-reshuffled state) returns every identity in the pool exactly once:
the window is a permutation of the pool. -/
theorem claim_C4 (shuffle : List BrowserProfile → List BrowserProfile)
    (pool : List BrowserProfile) (_hlen : 1 ≤ pool.length) :
    ((HeaderRotator.window shuffle pool.length ⟨pool, 0⟩).1).Perm pool := by
  have hw := HeaderRotator.window_from_cursor shuffle pool.length pool 0 (by omega)
  simp only [List.drop_zero] at hw
  rw [hw]

/-- Witness for C4 on the concrete two-element pool, with the reverse
function as the shuffle. -/
theorem claim_C4_witness :
    1 ≤ testPool.length ∧
    ((HeaderRotator.window List.reverse testPool.length ⟨testPool, 0⟩).1).Perm testPool :=
  ⟨by decide, claim_C4 List.reverse testPool (by decide)⟩

/-- Claim C6: for every rotator over a non-empty pool, the invariant
`0 ≤ cursor < len(pool)` holds after construction and after every call to
`next()`; when advancing would move the cursor past the end the pool is
reshuffled and the cursor reset to 0; and the element just returned by
that call is the pre-shuffle `pool[cursor]`, unaffected by the reshuffle.
`random.shuffle` is any permutation of the pool. -/
theorem claim_C6 (shuffle : List BrowserProfile → List BrowserProfile)
    (hs : ∀ l, (shuffle l).Perm l) :
    (∀ (draws : Nat → Draw) (size : Nat), 0 < size →
      (HeaderRotator.init shuffle draws size).index <
        (HeaderRotator.init shuffle draws size).pool.length) ∧
    (∀ r : HeaderRotator, r.index < r.pool.length →
      ((HeaderRotator.next shuffle r).2.index <
        (HeaderRotator.next shuffle r).2.pool.length ∧
       (HeaderRotator.next shuffle r).1 = r.pool.getD r.index default ∧
       (r.index + 1 ≥ r.pool.length →
         (HeaderRotator.next shuffle r).2 = ⟨shuffle r.pool, 0⟩))) := by
  constructor
  · intro draws size hsize
    show 0 < (shuffle (generate_browser_profiles draws size)).length
    rw [(hs (generate_browser_profiles draws size)).length_eq]
    simpa [generate_browser_profiles] using hsize
  · intro r hr
    by_cases hend : r.index + 1 ≥ r.pool.length
    · refine ⟨?_, ?_, ?_⟩
      · show (HeaderRotator.next shuffle r).2.index <
          (HeaderRotator.next shuffle r).2.pool.length
        simp only [HeaderRotator.next, if_pos hend]
        rw [(hs r.pool).length_eq]
        omega
      · simp only [HeaderRotator.next, if_pos hend]
      · intro _
        simp only [HeaderRotator.next, if_pos hend]
    · refine ⟨?_, ?_, ?_⟩
      · simp only [HeaderRotator.next, if_neg hend]
        omega
      · simp only [HeaderRotator.next, if_neg hend]
      · intro hcon
        exact absurd hcon hend

/-- Witness for C6: the reverse function as the shuffle, a concrete draw
stream and pool size 3, and a concrete rotator at its last slot. -/
theorem claim_C6_witness :
    (HeaderRotator.init List.reverse (fun _ => ⟨120, 16, 0, true⟩) 3).index <
      (HeaderRotator.init List.reverse (fun _ => ⟨120, 16, 0, true⟩) 3).pool.length ∧
    ((HeaderRotator.next List.reverse ⟨testPool, 1⟩).2.index <
      (HeaderRotator.next List.reverse ⟨testPool, 1⟩).2.pool.length ∧
     (HeaderRotator.next List.reverse ⟨testPool, 1⟩).1 =
       testPool.getD 1 default ∧
     (1 + 1 ≥ testPool.length →
       (HeaderRotator.next List.reverse ⟨testPool, 1⟩).2 = ⟨testPool.reverse, 0⟩)) :=
  ⟨(claim_C6 List.reverse (fun l => l.reverse_perm)).1 (fun _ => ⟨120, 16, 0, true⟩) 3
      (by norm_num),
   (claim_C6 List.reverse (fun l => l.reverse_perm)).2 ⟨testPool, 1⟩ (by decide)⟩

/-! ## Lemmas about profile generation -/

set_option maxRecDepth 10000 in
theorem mobileUA_no_desktop_tokens : ∀ pr ∈ mobile_platforms, ∀ sv ∈ [15, 16, 17],
    strContains (mobileUA pr.2 sv) "Chrome" = false ∧
    strContains (mobileUA pr.2 sv) "Edg" = false ∧
    strContains (mobileUA pr.2 sv) "Mobile Safari/605.1.15" = true := by decide

theorem plat_mobile_iff : ∀ i, i < 32 →
    (((all_platforms.getD i ("", "")).1 = "iPhone" ∨
      (all_platforms.getD i ("", "")).1 = "Android" ∨
      (all_platforms.getD i ("", "")).1 = "iPad") ↔
     all_platforms.getD i ("", "") ∈ mobile_platforms) := by decide

/-- Claim C5: every identity produced by `generate_browser_profiles` is
internally consistent: the mobile flag (`sec-ch-ua-mobile = "?1"`) holds
iff the drawn platform is from the mobile catalog (iPhone, iPad, Android);
mobile identities carry the mobile-Safari user-agent and the fixed mobile
client-hint string and their user-agent never contains the desktop-only
engine tokens `Chrome` or `Edg`; desktop identities carry a
Chromium-style user-agent whose engine label and version number also
appear in the client-hint string, with the mobile flag down.  The version
bounds are those of the `random.randint` calls. -/
theorem claim_C5 (d : Draw) (hidx : d.platIdx < 32)
    (hsv1 : 15 ≤ d.safariVer) (hsv2 : d.safariVer ≤ 17) :
    (((make_profile d).secChUaMobile = "?1") ↔ platPair d ∈ mobile_platforms) ∧
    (platPair d ∈ mobile_platforms →
      (make_profile d).secChUa = "\"Not(A:Brand\";v=\"8\", \"Safari\";v=\"17\"" ∧
      strContains (make_profile d).userAgent "Mobile Safari/605.1.15" = true ∧
      strContains (make_profile d).userAgent "Chrome" = false ∧
      strContains (make_profile d).userAgent "Edg" = false) ∧
    (platPair d ∉ mobile_platforms →
      (make_profile d).secChUaMobile = "?0" ∧
      (engineOf d = "Chrome" ∨ engineOf d = "Edg") ∧
      strContains (make_profile d).userAgent
        (engineOf d ++ "/" ++ toString d.chromeVer ++ ".0.0.0") = true ∧
      strContains (make_profile d).secChUa
        ("\"" ++ engineOf d ++ "\";v=\"" ++ toString d.chromeVer ++ "\"") = true) := by
  have hiff : isMobileDraw d ↔ platPair d ∈ mobile_platforms :=
    plat_mobile_iff d.platIdx hidx
  by_cases hmob : isMobileDraw d
  · have hmem : platPair d ∈ mobile_platforms := hiff.mp hmob
    have hprof : make_profile d = ⟨mobileUA (platPair d).2 d.safariVer, mobileSecChUa,
        "\"" ++ (platPair d).1 ++ "\"", "?1"⟩ := by
      unfold make_profile; rw [if_pos hmob]
    rw [hprof]
    have hsvmem : d.safariVer ∈ [15, 16, 17] := by
      interval_cases d.safariVer <;> simp
    obtain ⟨hC, hE, hM⟩ := mobileUA_no_desktop_tokens (platPair d) hmem d.safariVer hsvmem
    exact ⟨iff_of_true rfl hmem, fun _ => ⟨rfl, hM, hC, hE⟩,
      fun hmem' => absurd hmem hmem'⟩
  · have hmem : platPair d ∉ mobile_platforms := fun hm => hmob (hiff.mpr hm)
    have hprof : make_profile d = ⟨desktopUA (platPair d).2 (engineOf d) d.chromeVer,
        desktopSecChUa (engineOf d) d.chromeVer, "\"" ++ (platPair d).1 ++ "\"", "?0"⟩ := by
      unfold make_profile; rw [if_neg hmob]
    rw [hprof]
    refine ⟨iff_of_false (by simp) hmem, fun hm => absurd hm hmem,
      fun _ => ⟨rfl, ?_, ?_, ?_⟩⟩
    · unfold engineOf; cases d.engineIsChrome <;> simp
    · unfold desktopUA; exact strContains_parts _ _ _
    · unfold desktopSecChUa; exact strContains_tail _ _

/-- Witness for C5 at a concrete mobile draw (catalog index 20, an iPad)
and a concrete desktop draw (catalog index 0, Windows with the Edg
engine). -/
theorem claim_C5_witness :
    ((((make_profile ⟨120, 15, 20, true⟩).secChUaMobile = "?1") ↔
        platPair ⟨120, 15, 20, true⟩ ∈ mobile_platforms) ∧
      (platPair ⟨120, 15, 20, true⟩ ∈ mobile_platforms →
        (make_profile ⟨120, 15, 20, true⟩).secChUa =
          "\"Not(A:Brand\";v=\"8\", \"Safari\";v=\"17\"" ∧
        strContains (make_profile ⟨120, 15, 20, true⟩).userAgent
          "Mobile Safari/605.1.15" = true ∧
        strContains (make_profile ⟨120, 15, 20, true⟩).userAgent "Chrome" = false ∧
        strContains (make_profile ⟨120, 15, 20, true⟩).userAgent "Edg" = false) ∧
      (platPair ⟨120, 15, 20, true⟩ ∉ mobile_platforms →
        (make_profile ⟨120, 15, 20, true⟩).secChUaMobile = "?0" ∧
        (engineOf ⟨120, 15, 20, true⟩ = "Chrome" ∨ engineOf ⟨120, 15, 20, true⟩ = "Edg") ∧
        strContains (make_profile ⟨120, 15, 20, true⟩).userAgent
          (engineOf ⟨120, 15, 20, true⟩ ++ "/" ++ toString (120 : Nat) ++ ".0.0.0") = true ∧
        strContains (make_profile ⟨120, 15, 20, true⟩).secChUa
          ("\"" ++ engineOf ⟨120, 15, 20, true⟩ ++ "\";v=\"" ++ toString (120 : Nat) ++ "\"") = true)) ∧
    (platPair ⟨121, 16, 0, false⟩ ∉ mobile_platforms →
      (make_profile ⟨121, 16, 0, false⟩).secChUaMobile = "?0" ∧
      (engineOf ⟨121, 16, 0, false⟩ = "Chrome" ∨ engineOf ⟨121, 16, 0, false⟩ = "Edg") ∧
      strContains (make_profile ⟨121, 16, 0, false⟩).userAgent
        (engineOf ⟨121, 16, 0, false⟩ ++ "/" ++ toString (121 : Nat) ++ ".0.0.0") = true ∧
      strContains (make_profile ⟨121, 16, 0, false⟩).secChUa
        ("\"" ++ engineOf ⟨121, 16, 0, false⟩ ++ "\";v=\"" ++ toString (121 : Nat) ++ "\"") = true) :=
  ⟨claim_C5 ⟨120, 15, 20, true⟩ (by norm_num) (by norm_num) (by norm_num),
   (claim_C5 ⟨121, 16, 0, false⟩ (by norm_num) (by norm_num) (by norm_num)).2.2⟩

/-- Claim C7: for every API session whose stored token is absent (Python
falsy), `apply_referral_code`, `follow_share`, `get_show_all_followed` and
`logout` each fail with `NotAuthenticated` before issuing any network
request (the trace is empty and the state untouched); for every session
with a stored (truthy) token, each of these operations attaches that token
as the bearer header `app-login-token` on top of the executor's standard
headers on every attempt. -/
theorem claim_C7 (env : Env) (maxr : Int) (code share_id : String) (st : ClientState) :
    (st.token = none →
      apply_referral_code env maxr code st = (.error .notAuthenticated, st, []) ∧
      follow_share env maxr share_id st = (.error .notAuthenticated, st, []) ∧
      get_show_all_followed env maxr st = (.error .notAuthenticated, st, []) ∧
      logout env maxr st = (.error .notAuthenticated, st, [])) ∧
    (∀ v, st.token = some v → jTruthy v = true →
      attachOk env.cfg v (apply_referral_code env maxr code st).2.2 ∧
      attachOk env.cfg v (follow_share env maxr share_id st).2.2 ∧
      attachOk env.cfg v (get_show_all_followed env maxr st).2.2 ∧
      attachOk env.cfg v (logout env maxr st).2.2) := by
  constructor
  · intro hnone
    refine ⟨?_, ?_, ?_, ?_⟩ <;>
      simp [apply_referral_code, follow_share, get_show_all_followed, logout,
        withToken, hnone]
  · intro v hv htr
    refine ⟨?_, ?_, ?_, ?_⟩
    · unfold apply_referral_code
      rw [withToken_some st v _ hv htr]
      exact make_request_attachOk env _ _ _ v maxr st
    · unfold follow_share
      rw [withToken_some st v _ hv htr]
      exact make_request_attachOk env _ _ _ v maxr st
    · unfold get_show_all_followed
      rw [withToken_some st v _ hv htr]
      have hatt := make_request_attachOk env "POST" "/api/app/second/share/user/list"
        (some (.obj [("pageNum", .num 0), ("pageSize", .num 5), ("isFinish", .bool false)]))
        v maxr st
      rcases hr : make_request env "POST" "/api/app/second/share/user/list"
          (some (.obj [("pageNum", .num 0), ("pageSize", .num 5), ("isFinish", .bool false)]))
          [("app-login-token", v)] maxr st with ⟨r1, st1, evs⟩
      rw [hr] at hatt
      cases r1 <;> exact hatt
    · unfold logout
      rw [withToken_some st v _ hv htr]
      exact make_request_attachOk env _ _ _ v maxr st

/-- Witness for C7: a concrete environment, the fresh state (no token) for
the guard half and the state holding token `"T1"` for the attach half. -/
theorem claim_C7_witness :
    (apply_referral_code (baseEnv (fun _ => .response 200 "ok") (fun _ => none))
        5 "C" testState = (.error .notAuthenticated, testState, []) ∧
      follow_share (baseEnv (fun _ => .response 200 "ok") (fun _ => none))
        5 "S" testState = (.error .notAuthenticated, testState, []) ∧
      get_show_all_followed (baseEnv (fun _ => .response 200 "ok") (fun _ => none))
        5 testState = (.error .notAuthenticated, testState, []) ∧
      logout (baseEnv (fun _ => .response 200 "ok") (fun _ => none))
        5 testState = (.error .notAuthenticated, testState, [])) ∧
    (attachOk (baseEnv (fun _ => .response 200 "ok") (fun _ => none)).cfg (.str "T1")
      (apply_referral_code (baseEnv (fun _ => .response 200 "ok") (fun _ => none))
        5 "C" testStateTok).2.2 ∧
     attachOk (baseEnv (fun _ => .response 200 "ok") (fun _ => none)).cfg (.str "T1")
      (follow_share (baseEnv (fun _ => .response 200 "ok") (fun _ => none))
        5 "S" testStateTok).2.2 ∧
     attachOk (baseEnv (fun _ => .response 200 "ok") (fun _ => none)).cfg (.str "T1")
      (get_show_all_followed (baseEnv (fun _ => .response 200 "ok") (fun _ => none))
        5 testStateTok).2.2 ∧
     attachOk (baseEnv (fun _ => .response 200 "ok") (fun _ => none)).cfg (.str "T1")
      (logout (baseEnv (fun _ => .response 200 "ok") (fun _ => none))
        5 testStateTok).2.2) :=
  ⟨(claim_C7 (baseEnv (fun _ => .response 200 "ok") (fun _ => none))
      5 "C" "S" testState).1 rfl,
   (claim_C7 (baseEnv (fun _ => .response 200 "ok") (fun _ => none))
      5 "C" "S" testStateTok).2 (.str "T1") rfl rfl⟩

/-- Claim C10 (implicit): `login` is atomic with respect to the session
token: it stores the token only on success.  Whenever the 2xx response's
`data` field is missing or falsy (e.g. the empty string), `login` raises
the authentication-failed error and the stored token is unchanged (still
unset for a fresh session), so a subsequent authenticated operation still
fails with `NotAuthenticated` without issuing a request. -/
theorem claim_C10 (env : Env) (maxr : Int) (email password : String) (iv : Bool)
    (st : ClientState) (code : String) (fields : List (String × JValue))
    (hok : (make_request env "POST" "/api/app/user/login"
      (some (loginPayload email password iv)) [] maxr st).1 = .ok (.obj fields))
    (hfalsy : pyTruthy (objGet fields "data") = false) :
    (login env maxr email password iv st).1 =
      .error (.authenticationFailed (.obj fields)) ∧
    ((login env maxr email password iv st).2.1).token = st.token ∧
    (st.token = none →
      apply_referral_code env maxr code ((login env maxr email password iv st).2.1) =
        (.error .notAuthenticated, (login env maxr email password iv st).2.1, [])) := by
  have htok := make_request_token env "POST" "/api/app/user/login"
    (some (loginPayload email password iv)) [] maxr st
  rcases hM : make_request env "POST" "/api/app/user/login"
      (some (loginPayload email password iv)) [] maxr st with ⟨r1, st1, evs⟩
  rw [hM] at hok htok
  replace hok : r1 = .ok (.obj fields) := hok
  replace htok : st1.token = st.token := htok
  subst hok
  have hlog : login env maxr email password iv st =
      (.error (.authenticationFailed (.obj fields)), st1, evs) := by
    cases hd : objGet fields "data" with
    | none => simp [login, hM, hd]
    | some v =>
      have hjf : jTruthy v = false := by
        rw [hd] at hfalsy
        exact hfalsy
      simp [login, hM, hd, hjf]
  rw [hlog]
  refine ⟨rfl, htok, ?_⟩
  intro hnone
  have hst1 : st1.token = none := htok.trans hnone
  show apply_referral_code env maxr code st1 = (.error .notAuthenticated, st1, [])
  unfold apply_referral_code
  rw [withToken_none st1 _ hst1]

/-- Witness for C10: a concrete environment whose single 200 response
parses to an object whose `data` field is the empty string, applied at the
fresh state. -/
theorem claim_C10_witness :
    (login (baseEnv (fun _ => .response 200 "L")
        (fun s => if s = "L" then some (.obj [("data", .str "")]) else none))
      5 "a@x.com" "pw" true testState).1 =
      .error (.authenticationFailed (.obj [("data", .str "")])) ∧
    ((login (baseEnv (fun _ => .response 200 "L")
        (fun s => if s = "L" then some (.obj [("data", .str "")]) else none))
      5 "a@x.com" "pw" true testState).2.1).token = testState.token ∧
    (testState.token = none →
      apply_referral_code (baseEnv (fun _ => .response 200 "L")
          (fun s => if s = "L" then some (.obj [("data", .str "")]) else none))
        5 "C" ((login (baseEnv (fun _ => .response 200 "L")
          (fun s => if s = "L" then some (.obj [("data", .str "")]) else none))
          5 "a@x.com" "pw" true testState).2.1) =
        (.error .notAuthenticated,
         (login (baseEnv (fun _ => .response 200 "L")
          (fun s => if s = "L" then some (.obj [("data", .str "")]) else none))
          5 "a@x.com" "pw" true testState).2.1, [])) :=
  claim_C10 (baseEnv (fun _ => .response 200 "L")
      (fun s => if s = "L" then some (.obj [("data", .str "")]) else none))
    5 "a@x.com" "pw" true testState "C" [("data", .str "")] rfl rfl

theorem read_credentials_filter_congr (l1 l2 : List String)
    (h : l1.filter (fun l => (pyStrip l != "") && !(pyStartsWith (pyLStrip l) "#")) =
         l2.filter (fun l => (pyStrip l != "") && !(pyStartsWith (pyLStrip l) "#"))) :
    read_credentials_from_csv l1 = read_credentials_from_csv l2 := by
  unfold read_credentials_from_csv
  rw [h]

theorem processRows_cons_skip (fns : List String) (r : String) (rest : List String)
    (h : parseRow fns (pySplitComma r) = .ok none) :
    processRows fns (r :: rest) = processRows fns rest := by
  conv_lhs => rw [processRows]
  rw [h]

/-- Claim C8: CSV credential parsing skips lines that are blank or start
with `#` before parsing; skips (with a warning) any row whose stripped
email field is empty while continuing with the remaining rows; and the
file with header `email,password` and rows `a@x.com,pw1,true` and
`b@x.com,pw2` (no third column in the header, so `is_validator` defaults)
produces exactly two credentials with the second one's `is_validator`
defaulting to true. -/
theorem claim_C8 :
    read_credentials_from_csv ["email,password", "a@x.com,pw1,true", "b@x.com,pw2"] =
      .ok [⟨"a@x.com", "pw1", true⟩, ⟨"b@x.com", "pw2", true⟩] ∧
    (∀ (pre post : List String) (c : String),
      (pyStrip c = "" ∨ pyStartsWith (pyLStrip c) "#" = true) →
      read_credentials_from_csv (pre ++ c :: post) =
        read_credentials_from_csv (pre ++ post)) ∧
    (∀ (fieldnames : List String) (r : String) (rows₁ rows₂ : List String)
      (e p : String),
      rowGet fieldnames (pySplitComma r) "email" "" = some e → pyStrip e = "" →
      rowGet fieldnames (pySplitComma r) "password" "" = some p →
      processRows fieldnames (rows₁ ++ r :: rows₂) =
        processRows fieldnames (rows₁ ++ rows₂)) := by
  refine ⟨rfl, ?_, ?_⟩
  · intro pre post c hc
    apply read_credentials_filter_congr
    have hfc : ((pyStrip c != "") && !(pyStartsWith (pyLStrip c) "#")) = false := by
      rcases hc with h | h <;> simp [h]
    simp [List.filter_append, List.filter_cons, hfc]
  · intro fns r rows₁ rows₂ e p hE he hP
    have hrow : parseRow fns (pySplitComma r) = .ok none := by
      unfold parseRow
      rw [hE, hP]
      simp [he]
    induction rows₁ with
    | nil =>
      simp only [List.nil_append]
      exact processRows_cons_skip fns r rows₂ hrow
    | cons a l ih =>
      simp only [List.cons_append]
      simp only [processRows]
      rw [ih]

/-- Witness for C8: the blank-and-comment-skipping half applied at a
concrete insertion of a comment line, and the empty-email-skipping half
applied at the concrete row `" ,pw"` under the header `email,password`. -/
theorem claim_C8_witness :
    read_credentials_from_csv
        (["email,password"] ++ "# note" :: ["a@x.com,pw1,true", "b@x.com,pw2"]) =
      read_credentials_from_csv (["email,password"] ++ ["a@x.com,pw1,true", "b@x.com,pw2"]) ∧
    processRows ["email", "password"] (["a@x.com,pw1"] ++ " ,pw" :: ["b@x.com,pw2"]) =
      processRows ["email", "password"] (["a@x.com,pw1"] ++ ["b@x.com,pw2"]) :=
  ⟨(claim_C8).2.1 ["email,password"] ["a@x.com,pw1,true", "b@x.com,pw2"] "# note"
      (Or.inr (by decide)),
   (claim_C8).2.2 ["email", "password"] " ,pw" ["a@x.com,pw1"] ["b@x.com,pw2"] " " "pw"
      (by decide) (by decide) (by decide)⟩
